import Mathlib

/-!
Verification development for the AIfES activation-layer subsystem
(ailayer_leaky_relu.c / ailayer_leaky_relu.h / ailayer_sigmoid.c).

The C code is shallowly embedded: the structs aitensor_t, ailayer_t,
ailayer_leaky_relu_t and ailayer_sigmoid_t become Lean structures, and
the layer functions become pure Lean functions on an explicit local
graph state.  Pointers that matter only for identity (shape sequences,
tensor-parameter blocks, neighbor links, layer-type singletons) are
modelled as natural-number addresses; two tensors share a shape
sequence by reference exactly when their shape addresses are equal.
The dtype-specific math kernels are injected function fields, exactly
as the C structs hold function pointers; per the kernel contract
documented in ailayer_leaky_relu.h they compute the result tensor's
data elementwise, so a kernel is modelled as a function on the data
lists.
-/

/-- Model of the aimath_dtype_t descriptor: the fields the embedded code
reads.  size is the byte size of one element, tensor_params_size the
byte size of the dtype-dependent header/parameter block. -/
structure aimath_dtype where
  id : Nat
  size : Nat
  tensor_params_size : Nat
deriving DecidableEq

/-- Model of aitensor_t: dtype descriptor, dimensionality, shape
sequence held by reference (a Nat address), owned data contents, and the
address of the tensor-parameter block. -/
structure aitensor (α : Type) where
  dtype : aimath_dtype
  dim : Nat
  shape : Nat
  data : List α
  tensor_params : Nat
deriving DecidableEq

/-- Identities of the callback functions a layer initializer can install
into the ailayer_t function-pointer slots; null models the C null
pointer written to the unused slots. -/
inductive layer_cb where
  | null
  | leaky_relu_fwd
  | leaky_relu_bwd
  | leaky_relu_shape
  | sigmoid_fwd
  | sigmoid_bwd
  | sigmoid_shape
deriving DecidableEq

/-- Model of ailayer_t: the generic layer node.  Neighbor links and the
layer-configuration back pointer are node addresses; the callback slots
hold callback identities. -/
structure ailayer (α : Type) where
  layer_type : Nat
  input_layer : Nat
  output_layer : Nat
  layer_configuration : Nat
  result : aitensor α
  deltas : aitensor α
  forward : layer_cb
  backward : layer_cb
  calc_result_shape : layer_cb
  sizeof_paramem : layer_cb
  set_paramem : layer_cb
  sizeof_trainmem : layer_cb
  set_trainmem : layer_cb
  trainable_params_count : Nat

/-- Address of the ailayer_leaky_relu_type_s singleton. -/
def ailayer_leaky_relu_type : Nat := 1

/-- Address of the ailayer_sigmoid_type_s singleton. -/
def ailayer_sigmoid_type : Nat := 2

/-- Model of ailayer_leaky_relu_t: the base node, the configured dtype,
the alpha slope scalar (a void pointer to a scalar in C, modelled as the
scalar itself), and the three injected kernels operating on tensor data,
with alpha passed through as in the C signatures. -/
structure ailayer_leaky_relu (α : Type) where
  base : ailayer α
  dtype : aimath_dtype
  alpha : α
  leaky_relu : List α → α → List α
  d_leaky_relu : List α → α → List α
  multiply : List α → List α → List α

/-- Model of ailayer_sigmoid_t: the base node, the configured dtype and
the two activation kernels plus the multiply kernel (ailayer_sigmoid.h
is not under src; the fields are those ailayer_sigmoid.c reads:
layer->sigmoid, layer->d_sigmoid, layer->multiply, layer->dtype). -/
structure ailayer_sigmoid (α : Type) where
  base : ailayer α
  dtype : aimath_dtype
  sigmoid : List α → List α
  d_sigmoid : List α → List α
  multiply : List α → List α → List α

/-- The initializer ailayer_leaky_relu() from ailayer_leaky_relu.c,
lines 39 to 67.  self_addr is the address of layer->base, input_addr the
address of the predecessor node; the function returns the updated layer,
the updated predecessor (whose output_layer now points at this node) and
the returned handle, which in C is &(layer->base). -/
def ailayer_leaky_relu_init {α : Type} (layer : ailayer_leaky_relu α) (self_addr : Nat)
    (input_layer : ailayer α) (input_addr : Nat) :
    ailayer_leaky_relu α × ailayer α × Nat :=
  let base := layer.base
  let base := { base with layer_type := ailayer_leaky_relu_type }
  let base := { base with input_layer := input_addr }
  let input_layer := { input_layer with output_layer := self_addr }
  let base := { base with layer_configuration := self_addr }
  let base := { base with result := { base.result with dtype := layer.dtype } }
  let base := { base with result := { base.result with shape := input_layer.result.shape } }
  let base := { base with result := { base.result with dim := input_layer.result.dim } }
  let base := { base with deltas := { base.deltas with dtype := layer.dtype } }
  let base := { base with deltas := { base.deltas with dim := 2 } }
  let base := { base with deltas := { base.deltas with shape := base.result.shape } }
  let base := { base with
    forward := layer_cb.leaky_relu_fwd
    backward := layer_cb.leaky_relu_bwd
    calc_result_shape := layer_cb.leaky_relu_shape
    sizeof_paramem := layer_cb.null
    set_paramem := layer_cb.null
    sizeof_trainmem := layer_cb.null
    set_trainmem := layer_cb.null
    trainable_params_count := 0 }
  ({ layer with base := base }, input_layer, self_addr)

/-- The initializer ailayer_sigmoid() from ailayer_sigmoid.c, lines 40
to 68; identical wiring with the sigmoid callbacks and type singleton. -/
def ailayer_sigmoid_init {α : Type} (layer : ailayer_sigmoid α) (self_addr : Nat)
    (input_layer : ailayer α) (input_addr : Nat) :
    ailayer_sigmoid α × ailayer α × Nat :=
  let base := layer.base
  let base := { base with layer_type := ailayer_sigmoid_type }
  let base := { base with input_layer := input_addr }
  let input_layer := { input_layer with output_layer := self_addr }
  let base := { base with layer_configuration := self_addr }
  let base := { base with result := { base.result with dtype := layer.dtype } }
  let base := { base with result := { base.result with dim := input_layer.result.dim } }
  let base := { base with result := { base.result with shape := input_layer.result.shape } }
  let base := { base with deltas := { base.deltas with dtype := layer.dtype } }
  let base := { base with deltas := { base.deltas with dim := 2 } }
  let base := { base with deltas := { base.deltas with shape := base.result.shape } }
  let base := { base with
    forward := layer_cb.sigmoid_fwd
    backward := layer_cb.sigmoid_bwd
    calc_result_shape := layer_cb.sigmoid_shape
    sizeof_paramem := layer_cb.null
    set_paramem := layer_cb.null
    sizeof_trainmem := layer_cb.null
    set_trainmem := layer_cb.null
    trainable_params_count := 0 }
  ({ layer with base := base }, input_layer, self_addr)

/-- The local graph neighborhood a Leaky ReLU layer function touches:
the layer itself (reached through self->layer_configuration), the
predecessor's result tensor self->input_layer->result and the
successor's deltas tensor self->output_layer->deltas. -/
structure ailayer_leaky_relu_graph (α : Type) where
  layer : ailayer_leaky_relu α
  input_result : aitensor α
  output_deltas : aitensor α

/-- The local graph neighborhood a Sigmoid layer function touches. -/
structure ailayer_sigmoid_graph (α : Type) where
  layer : ailayer_sigmoid α
  input_result : aitensor α
  output_deltas : aitensor α

/-- ailayer_leaky_relu_forward() from ailayer_leaky_relu.c, lines 69 to
77: x_out is the layer's own result, and layer->leaky_relu(x_in,
layer->alpha, x_out) writes the kernel output into x_out's data. -/
def ailayer_leaky_relu_forward {α : Type} (g : ailayer_leaky_relu_graph α) :
    ailayer_leaky_relu_graph α :=
  let x_in := g.input_result
  let x_out := { g.layer.base.result with data := g.layer.leaky_relu x_in.data g.layer.alpha }
  { g with layer := { g.layer with base := { g.layer.base with result := x_out } } }

/-- ailayer_leaky_relu_backward() from ailayer_leaky_relu.c, lines 79 to
91: delta_in is this node's own deltas, delta_out the successor's
deltas; first layer->d_leaky_relu(x_in, layer->alpha, delta_in), then
layer->multiply(delta_in, delta_out, delta_in) in place. -/
def ailayer_leaky_relu_backward {α : Type} (g : ailayer_leaky_relu_graph α) :
    ailayer_leaky_relu_graph α :=
  let x_in := g.input_result
  let delta_out := g.output_deltas
  let delta_in := g.layer.base.deltas
  let delta_in := { delta_in with data := g.layer.d_leaky_relu x_in.data g.layer.alpha }
  let delta_in := { delta_in with data := g.layer.multiply delta_in.data delta_out.data }
  { g with layer := { g.layer with base := { g.layer.base with deltas := delta_in } } }

/-- ailayer_leaky_relu_calc_result_shape() from ailayer_leaky_relu.c,
lines 93 to 101: the body is entirely commented out because the shape is
already shared by pointer, so the function changes nothing. -/
def ailayer_leaky_relu_calc_result_shape {α : Type} (g : ailayer_leaky_relu_graph α) :
    ailayer_leaky_relu_graph α :=
  g

/-- ailayer_sigmoid_forward() from ailayer_sigmoid.c, lines 70 to 78. -/
def ailayer_sigmoid_forward {α : Type} (g : ailayer_sigmoid_graph α) :
    ailayer_sigmoid_graph α :=
  let x_in := g.input_result
  let x_out := { g.layer.base.result with data := g.layer.sigmoid x_in.data }
  { g with layer := { g.layer with base := { g.layer.base with result := x_out } } }

/-- ailayer_sigmoid_backward() from ailayer_sigmoid.c, lines 81 to 104:
a stack-local scratch tensor temp_result is built with dim 2, x_in's
shape pointer, x_in's dtype and fresh uninitialized buffers; then
layer->sigmoid(x_in, &temp_result), layer->d_sigmoid(&temp_result,
&temp_result) in place, layer->multiply(&temp_result, delta_out,
delta_in) into this node's own deltas.  The scratch is a local value and
does not survive the call. -/
def ailayer_sigmoid_backward {α : Type} (g : ailayer_sigmoid_graph α) :
    ailayer_sigmoid_graph α :=
  let x_in := g.input_result
  let delta_out := g.output_deltas
  let temp_result : aitensor α :=
    { dim := 2, shape := x_in.shape, data := [], dtype := x_in.dtype, tensor_params := 0 }
  let temp_result := { temp_result with data := g.layer.sigmoid x_in.data }
  let temp_result := { temp_result with data := g.layer.d_sigmoid temp_result.data }
  let delta_in := { g.layer.base.deltas with data := g.layer.multiply temp_result.data delta_out.data }
  { g with layer := { g.layer with base := { g.layer.base with deltas := delta_in } } }

/-- ailayer_sigmoid_calc_result_shape() from ailayer_sigmoid.c, lines
106 to 114: the body is entirely commented out, the function changes
nothing. -/
def ailayer_sigmoid_calc_result_shape {α : Type} (g : ailayer_sigmoid_graph α) :
    ailayer_sigmoid_graph α :=
  g

/-- The scalar Leaky ReLU kernel, per the required-math-function
contract documented in ailayer_leaky_relu.h, lines 71 to 84: alpha times
x when x is negative, x when x is at least 0.  The dtype-specific kernel
implementations are not under src; this follows the documented formula
the layer requires of every installed kernel. -/
def leaky_relu_scalar (alpha x : ℚ) : ℚ :=
  if x < 0 then alpha * x else x

/-- The scalar Leaky ReLU derivative kernel, per ailayer_leaky_relu.h,
lines 86 to 99: alpha when x is negative, 1 when x is at least 0. -/
def d_leaky_relu_scalar (alpha x : ℚ) : ℚ :=
  if x < 0 then alpha else 1

/-- The tensor-level Leaky ReLU kernel: the documented contract applies
the scalar formula to every element of the input tensor. -/
def leaky_relu_kernel (x : List ℚ) (alpha : ℚ) : List ℚ :=
  x.map (leaky_relu_scalar alpha)

/-- The tensor-level Leaky ReLU derivative kernel. -/
def d_leaky_relu_kernel (x : List ℚ) (alpha : ℚ) : List ℚ :=
  x.map (d_leaky_relu_scalar alpha)

/-- The elementwise tensor multiplication kernel required by both
layers, per ailayer_leaky_relu.h, lines 101 to 108. -/
def multiply_kernel (a b : List ℚ) : List ℚ :=
  List.zipWith (fun u v => u * v) a b

/-- Modelled from the spec: aimath_sizeof_tensor_params from
aimath_basic.c is not under src.  Per the spec the scratch footprint's
first part is the header/parameter byte count, dtype-dependent: the
dtype's tensor-parameter block size. -/
def aimath_sizeof_tensor_params {α : Type} (t : aitensor α) : Nat :=
  t.dtype.tensor_params_size

/-- Modelled from the spec: aimath_sizeof_tensor_data from
aimath_basic.c is not under src.  Per the spec the payload byte count is
dtype-dependent: bytes per element times the number of elements, the
product of the first dim entries of the shape sequence the tensor's
shape address refers to. -/
def aimath_sizeof_tensor_data {α : Type} (shapes : Nat → List Nat) (t : aitensor α) : Nat :=
  t.dtype.size * ((shapes t.shape).take t.dim).prod

/-- The byte counts of the two stack arrays declared on entry to
ailayer_sigmoid_backward(), ailayer_sigmoid.c lines 88 and 89:
temp_result_params gets aimath_sizeof_tensor_params(x_in) + 1 bytes (the
comment in the source says the + 1 prevents an array of size 0) and
temp_result_data gets aimath_sizeof_tensor_data(x_in) bytes. -/
def sigmoid_backward_scratch_sizes {α : Type} (shapes : Nat → List Nat) (x_in : aitensor α) :
    Nat × Nat :=
  (aimath_sizeof_tensor_params x_in + 1, aimath_sizeof_tensor_data shapes x_in)

/-- Modelled from the spec: the dtype-specific sigmoid activate kernel
is not under src; the spec gives activate(x) = 1 / (1 + exp(-x)),
idealized here over the reals. -/
noncomputable def sigmoid_scalar (x : ℝ) : ℝ :=
  1 / (1 + Real.exp (-x))

/-- Modelled from the spec: the sigmoid derivative kernel is not under
src; the spec gives derivative(s) = s * (1 - s), taking the
already-computed sigmoid output s, not the raw input. -/
def d_sigmoid_scalar (s : ℝ) : ℝ :=
  s * (1 - s)

/-- A concrete dtype descriptor for building concrete states: 4-byte
elements, no tensor-parameter block (the float32 layout). -/
def mk_dtype : aimath_dtype :=
  { id := 0, size := 4, tensor_params_size := 0 }

/-- A concrete tensor with the given data, at arbitrary fixed shape and
parameter-block addresses. -/
def mk_tensor {α : Type} (d : List α) : aitensor α :=
  { dtype := mk_dtype, dim := 2, shape := 11, data := d, tensor_params := 12 }

/-- A concrete generic layer node holding the given result and deltas
data. -/
def mk_base {α : Type} (res del : List α) : ailayer α :=
  { layer_type := 0
    input_layer := 0
    output_layer := 0
    layer_configuration := 0
    result := mk_tensor res
    deltas := mk_tensor del
    forward := layer_cb.null
    backward := layer_cb.null
    calc_result_shape := layer_cb.null
    sizeof_paramem := layer_cb.null
    set_paramem := layer_cb.null
    sizeof_trainmem := layer_cb.null
    set_trainmem := layer_cb.null
    trainable_params_count := 0 }

/-- The Scenario A state: a Leaky ReLU layer with the reference rational
kernels, alpha = 1/10, predecessor result [-2, 0, 3] and successor
gradient [1, 1, 1]. -/
def scenarioA : ailayer_leaky_relu_graph ℚ :=
  { layer :=
      { base := mk_base [0, 0, 0] [0, 0, 0]
        dtype := mk_dtype
        alpha := 1/10
        leaky_relu := leaky_relu_kernel
        d_leaky_relu := d_leaky_relu_kernel
        multiply := multiply_kernel }
    input_result := mk_tensor [-2, 0, 3]
    output_deltas := mk_tensor [1, 1, 1] }

/-- Claim C1: one Sigmoid backward call computes, for every installed
kernel triple, the contents of the node's own gradient slot as the
multiply kernel applied to the derivative kernel applied to the activate
kernel applied to the predecessor's result data, and to the successor's
gradient data: the scratch is filled with activate of the predecessor's
result, the derivative is taken of that recomputed sigmoid output (never
of the raw input), and the product with the successor's gradient lands
in the deltas slot. -/
theorem claim_C1_sigmoid_backward_steps {α : Type} (g : ailayer_sigmoid_graph α) :
    (ailayer_sigmoid_backward g).layer.base.deltas.data
      = g.layer.multiply (g.layer.d_sigmoid (g.layer.sigmoid g.input_result.data))
          g.output_deltas.data :=
  rfl

/-- Claim C3: one Leaky ReLU backward call writes the derivative kernel
applied to the predecessor's result into the node's own gradient slot
and then multiplies that slot elementwise by the successor's gradient in
place; on Scenario A (x = [-2, 0, 3], g = [1, 1, 1], alpha = 1/10) the
final slot contents are [1/10, 1, 1]. -/
theorem claim_C3_leaky_relu_backward :
    (∀ (α : Type) (g : ailayer_leaky_relu_graph α),
      (ailayer_leaky_relu_backward g).layer.base.deltas.data
        = g.layer.multiply (g.layer.d_leaky_relu g.input_result.data g.layer.alpha)
            g.output_deltas.data)
    ∧ (ailayer_leaky_relu_backward scenarioA).layer.base.deltas.data = [1/10, 1, 1] := by
  constructor
  · intro α g
    rfl
  · show multiply_kernel (d_leaky_relu_kernel [-2, 0, 3] (1/10)) [1, 1, 1] = [1/10, 1, 1]
    norm_num [multiply_kernel, d_leaky_relu_kernel, d_leaky_relu_scalar]

/-- A Leaky ReLU state whose own gradient slot holds stale prior
contents [42] while the successor's gradient slot holds [2]; the
predecessor result is [3]. -/
def c5_state : ailayer_leaky_relu_graph ℚ :=
  { layer :=
      { base := mk_base [0] [42]
        dtype := mk_dtype
        alpha := 1/10
        leaky_relu := leaky_relu_kernel
        d_leaky_relu := d_leaky_relu_kernel
        multiply := multiply_kernel }
    input_result := mk_tensor [3]
    output_deltas := mk_tensor [2] }

/-- Claim C5 counterexample: the backward pass does not combine the
derivative with the gradient found in this node's own slot.  On
c5_state the own slot's prior contents are [42], yet the slot ends as
[2] = derivative([3]) times the successor slot's [2], not
derivative([3]) times the own slot's [42]. -/
theorem claim_C5_counterexample :
    (ailayer_leaky_relu_backward c5_state).layer.base.deltas.data
      ≠ multiply_kernel (d_leaky_relu_kernel c5_state.input_result.data c5_state.layer.alpha)
          c5_state.layer.base.deltas.data := by
  show multiply_kernel (d_leaky_relu_kernel [3] (1/10)) [2]
      ≠ multiply_kernel (d_leaky_relu_kernel [3] (1/10)) [42]
  norm_num [multiply_kernel, d_leaky_relu_kernel, d_leaky_relu_scalar]

/-- Claim C5 as amended: for both layers, backward reads the gradient
deposited by the successor in the successor's own deltas slot (reached
through output_layer), together with the predecessor's result, and
writes the chain-rule contribution into this node's own deltas slot; the
own slot's prior contents are never read (for Leaky ReLU the slot still
doubles as scratch between the two kernel calls), so replacing them
changes nothing. -/
theorem claim_C5_backward_slot_discipline :
    (∀ (α : Type) (g : ailayer_leaky_relu_graph α) (d : List α),
      (ailayer_leaky_relu_backward g).layer.base.deltas.data
        = g.layer.multiply (g.layer.d_leaky_relu g.input_result.data g.layer.alpha)
            g.output_deltas.data
      ∧ (ailayer_leaky_relu_backward
            { g with layer := { g.layer with base := { g.layer.base with
                deltas := { g.layer.base.deltas with data := d } } } }).layer.base.deltas.data
          = (ailayer_leaky_relu_backward g).layer.base.deltas.data)
    ∧ (∀ (α : Type) (g : ailayer_sigmoid_graph α) (d : List α),
      (ailayer_sigmoid_backward g).layer.base.deltas.data
        = g.layer.multiply (g.layer.d_sigmoid (g.layer.sigmoid g.input_result.data))
            g.output_deltas.data
      ∧ (ailayer_sigmoid_backward
            { g with layer := { g.layer with base := { g.layer.base with
                deltas := { g.layer.base.deltas with data := d } } } }).layer.base.deltas.data
          = (ailayer_sigmoid_backward g).layer.base.deltas.data) :=
  ⟨fun _ _ _ => ⟨rfl, rfl⟩, fun _ _ _ => ⟨rfl, rfl⟩⟩

/-- Claim C6: the Leaky ReLU activate kernel returns alpha times x for
x negative and x for x at least 0, the derivative kernel returns alpha
for x negative and 1 for x at least 0, both classify the boundary x = 0
into the non-negative branch (activate 0 = 0 through the identity
branch, derivative 0 = 1), and the tensor-level kernels apply the scalar
formulas to every element. -/
theorem claim_C6_leaky_relu_kernels :
    (∀ alpha x : ℚ, x < 0 → leaky_relu_scalar alpha x = alpha * x)
    ∧ (∀ alpha x : ℚ, 0 ≤ x → leaky_relu_scalar alpha x = x)
    ∧ (∀ alpha : ℚ, leaky_relu_scalar alpha 0 = 0)
    ∧ (∀ alpha x : ℚ, x < 0 → d_leaky_relu_scalar alpha x = alpha)
    ∧ (∀ alpha x : ℚ, 0 ≤ x → d_leaky_relu_scalar alpha x = 1)
    ∧ (∀ alpha : ℚ, d_leaky_relu_scalar alpha 0 = 1)
    ∧ (∀ (xs : List ℚ) (alpha : ℚ),
        leaky_relu_kernel xs alpha = xs.map (leaky_relu_scalar alpha)
        ∧ d_leaky_relu_kernel xs alpha = xs.map (d_leaky_relu_scalar alpha)) := by
  refine ⟨fun alpha x hx => if_pos hx, fun alpha x hx => if_neg (not_lt.mpr hx),
    fun alpha => ?_, fun alpha x hx => if_pos hx, fun alpha x hx => if_neg (not_lt.mpr hx),
    fun alpha => ?_, fun xs alpha => ⟨rfl, rfl⟩⟩
  · exact if_neg (lt_irrefl 0)
  · exact if_neg (lt_irrefl 0)

/-- Claim C6 witness: the kernel facts instantiated at x = -2 and
x = 3 with alpha = 1/10. -/
theorem claim_C6_leaky_relu_kernels_witness :
    leaky_relu_scalar (1/10) (-2) = (1/10) * (-2)
    ∧ leaky_relu_scalar (1/10) 3 = 3
    ∧ d_leaky_relu_scalar (1/10) (-2) = 1/10
    ∧ d_leaky_relu_scalar (1/10) 3 = 1 :=
  ⟨claim_C6_leaky_relu_kernels.1 (1/10) (-2) (by norm_num),
   claim_C6_leaky_relu_kernels.2.1 (1/10) 3 (by norm_num),
   claim_C6_leaky_relu_kernels.2.2.2.1 (1/10) (-2) (by norm_num),
   claim_C6_leaky_relu_kernels.2.2.2.2.1 (1/10) 3 (by norm_num)⟩

/-- Claim C7: for both layers, forward mutates only the node's own
result data, backward mutates only the node's own deltas data, and
calc_result_shape mutates nothing at all: every shape, dimensionality
and dtype field of result and deltas, the neighbor tensors, and all
fields of the layer record other than the mutated tensor are left
unchanged. -/
theorem claim_C7_frame_conditions :
    (∀ (α : Type) (g : ailayer_leaky_relu_graph α),
      ailayer_leaky_relu_calc_result_shape g = g
      ∧ (ailayer_leaky_relu_forward g).layer
          = { g.layer with base := { g.layer.base with
              result := { g.layer.base.result with
                data := g.layer.leaky_relu g.input_result.data g.layer.alpha } } }
      ∧ (ailayer_leaky_relu_forward g).input_result = g.input_result
      ∧ (ailayer_leaky_relu_forward g).output_deltas = g.output_deltas
      ∧ (ailayer_leaky_relu_backward g).layer
          = { g.layer with base := { g.layer.base with
              deltas := { g.layer.base.deltas with
                data := g.layer.multiply
                  (g.layer.d_leaky_relu g.input_result.data g.layer.alpha)
                  g.output_deltas.data } } }
      ∧ (ailayer_leaky_relu_backward g).input_result = g.input_result
      ∧ (ailayer_leaky_relu_backward g).output_deltas = g.output_deltas)
    ∧ (∀ (α : Type) (g : ailayer_sigmoid_graph α),
      ailayer_sigmoid_calc_result_shape g = g
      ∧ (ailayer_sigmoid_forward g).layer
          = { g.layer with base := { g.layer.base with
              result := { g.layer.base.result with
                data := g.layer.sigmoid g.input_result.data } } }
      ∧ (ailayer_sigmoid_forward g).input_result = g.input_result
      ∧ (ailayer_sigmoid_forward g).output_deltas = g.output_deltas
      ∧ (ailayer_sigmoid_backward g).layer
          = { g.layer with base := { g.layer.base with
              deltas := { g.layer.base.deltas with
                data := g.layer.multiply
                  (g.layer.d_sigmoid (g.layer.sigmoid g.input_result.data))
                  g.output_deltas.data } } }
      ∧ (ailayer_sigmoid_backward g).input_result = g.input_result
      ∧ (ailayer_sigmoid_backward g).output_deltas = g.output_deltas) :=
  ⟨fun _ _ => ⟨rfl, rfl, rfl, rfl, rfl, rfl, rfl⟩,
   fun _ _ => ⟨rfl, rfl, rfl, rfl, rfl, rfl, rfl⟩⟩

/-- Claim C8: on any Sigmoid state, n + 1 repeated backward calls leave
the state exactly as one backward call does: the scratch tensor is local
to each call, so no state survives between calls and the gradient slot's
contents are independent of the call count. -/
theorem claim_C8_sigmoid_backward_idempotent {α : Type} (n : Nat) :
    ∀ g : ailayer_sigmoid_graph α,
      ailayer_sigmoid_backward^[n + 1] g = ailayer_sigmoid_backward g := by
  induction n with
  | zero => intro g; rfl
  | succ n ih =>
    intro g
    rw [Function.iterate_succ_apply, ih (ailayer_sigmoid_backward g)]
    exact rfl

/-- A concrete shape heap: every shape address refers to the sequence
[2, 3]. -/
def c2_shapes : Nat → List Nat :=
  fun _ => [2, 3]

/-- Claim C2 counterexample: for the float32-style dtype, whose
tensor-parameter block is 0 bytes, the scratch parameter buffer declared
by ailayer_sigmoid_backward holds 1 byte, not exactly the predecessor
result's 0 parameter bytes: the source adds 1 to prevent an array of
size 0. -/
theorem claim_C2_counterexample :
    (sigmoid_backward_scratch_sizes c2_shapes (mk_tensor ([] : List ℚ))).1
      ≠ aimath_sizeof_tensor_params (mk_tensor ([] : List ℚ)) := by
  decide

/-- Claim C2 as amended: the scratch data buffer holds exactly the
predecessor result's payload byte count, while the scratch parameter
buffer holds the predecessor result's parameter byte count plus one
byte (never exactly that count); and the scratch is local to a single
backward call: the post-state of backward carries only the new deltas
data, every other component being unchanged, so nothing of the scratch
is retained or shared across calls or layers. -/
theorem claim_C2_scratch_sizing_and_lifetime :
    (∀ (α : Type) (shapes : Nat → List Nat) (x_in : aitensor α),
      (sigmoid_backward_scratch_sizes shapes x_in).2 = aimath_sizeof_tensor_data shapes x_in
      ∧ (sigmoid_backward_scratch_sizes shapes x_in).1 = aimath_sizeof_tensor_params x_in + 1
      ∧ (sigmoid_backward_scratch_sizes shapes x_in).1 ≠ aimath_sizeof_tensor_params x_in)
    ∧ (∀ (α : Type) (g : ailayer_sigmoid_graph α),
      ailayer_sigmoid_backward g
        = { g with layer := { g.layer with base := { g.layer.base with
            deltas := { g.layer.base.deltas with
              data := g.layer.multiply
                (g.layer.d_sigmoid (g.layer.sigmoid g.input_result.data))
                g.output_deltas.data } } } }) :=
  ⟨fun _ _ x_in => ⟨rfl, rfl, Nat.succ_ne_self (aimath_sizeof_tensor_params x_in)⟩,
   fun _ _ => rfl⟩

/-- A Leaky ReLU layer record whose user-configured dtype (id 7)
differs from the dtype of its predecessor's result (id 3 below). -/
def c4_layer : ailayer_leaky_relu ℚ :=
  { base := mk_base [] []
    dtype := { id := 7, size := 1, tensor_params_size := 2 }
    alpha := 1/10
    leaky_relu := leaky_relu_kernel
    d_leaky_relu := d_leaky_relu_kernel
    multiply := multiply_kernel }

/-- A predecessor node whose result carries dtype id 3. -/
def c4_input : ailayer ℚ :=
  { mk_base [1] [0] with
    result := { mk_tensor [1] with dtype := { id := 3, size := 4, tensor_params_size := 0 } } }

/-- Claim C4 counterexample: the initializer does not copy the dtype
from the predecessor's result; it copies the layer's own configured
dtype field.  With c4_layer configured to dtype id 7 over a predecessor
whose result has dtype id 3, the initialized node's result dtype is 7,
not the predecessor's 3, so the result dtype does not equal its
input's. -/
theorem claim_C4_counterexample :
    (ailayer_leaky_relu_init c4_layer 21 c4_input 20).1.base.result.dtype
      ≠ c4_input.result.dtype := by
  decide

/-- Claim C4 as amended: both initializers wire the node's
back-reference to the predecessor and the predecessor's
forward-reference to this node, set the result dtype from the layer's
own configured dtype field (not from the predecessor's result), copy the
dimensionality from and share the shape sequence by reference with the
predecessor's result, install the layer's forward, backward and
shape-inference callbacks, set the trainable-parameter count to 0 and
return the node's base address as the graph handle; afterwards the
node's result shape is the predecessor result's shape, and its dtype
equals the predecessor's only when configured to match. -/
theorem claim_C4_initializer_wiring :
    (∀ (α : Type) (layer : ailayer_leaky_relu α) (a : Nat) (input : ailayer α) (b : Nat),
      (ailayer_leaky_relu_init layer a input b).1.base.layer_type = ailayer_leaky_relu_type
      ∧ (ailayer_leaky_relu_init layer a input b).1.base.input_layer = b
      ∧ (ailayer_leaky_relu_init layer a input b).2.1.output_layer = a
      ∧ (ailayer_leaky_relu_init layer a input b).1.base.layer_configuration = a
      ∧ (ailayer_leaky_relu_init layer a input b).1.base.result.dtype = layer.dtype
      ∧ (ailayer_leaky_relu_init layer a input b).1.base.result.dim = input.result.dim
      ∧ (ailayer_leaky_relu_init layer a input b).1.base.result.shape = input.result.shape
      ∧ (ailayer_leaky_relu_init layer a input b).1.base.forward = layer_cb.leaky_relu_fwd
      ∧ (ailayer_leaky_relu_init layer a input b).1.base.backward = layer_cb.leaky_relu_bwd
      ∧ (ailayer_leaky_relu_init layer a input b).1.base.calc_result_shape
          = layer_cb.leaky_relu_shape
      ∧ (ailayer_leaky_relu_init layer a input b).1.base.trainable_params_count = 0
      ∧ (ailayer_leaky_relu_init layer a input b).2.2 = a)
    ∧ (∀ (α : Type) (layer : ailayer_sigmoid α) (a : Nat) (input : ailayer α) (b : Nat),
      (ailayer_sigmoid_init layer a input b).1.base.layer_type = ailayer_sigmoid_type
      ∧ (ailayer_sigmoid_init layer a input b).1.base.input_layer = b
      ∧ (ailayer_sigmoid_init layer a input b).2.1.output_layer = a
      ∧ (ailayer_sigmoid_init layer a input b).1.base.layer_configuration = a
      ∧ (ailayer_sigmoid_init layer a input b).1.base.result.dtype = layer.dtype
      ∧ (ailayer_sigmoid_init layer a input b).1.base.result.dim = input.result.dim
      ∧ (ailayer_sigmoid_init layer a input b).1.base.result.shape = input.result.shape
      ∧ (ailayer_sigmoid_init layer a input b).1.base.forward = layer_cb.sigmoid_fwd
      ∧ (ailayer_sigmoid_init layer a input b).1.base.backward = layer_cb.sigmoid_bwd
      ∧ (ailayer_sigmoid_init layer a input b).1.base.calc_result_shape = layer_cb.sigmoid_shape
      ∧ (ailayer_sigmoid_init layer a input b).1.base.trainable_params_count = 0
      ∧ (ailayer_sigmoid_init layer a input b).2.2 = a) :=
  ⟨fun _ _ _ _ _ => ⟨rfl, rfl, rfl, rfl, rfl, rfl, rfl, rfl, rfl, rfl, rfl, rfl⟩,
   fun _ _ _ _ _ => ⟨rfl, rfl, rfl, rfl, rfl, rfl, rfl, rfl, rfl, rfl, rfl, rfl⟩⟩

/-- The Scenario B state: a Sigmoid layer over the reals with the
spec-modelled kernels, predecessor result [0] and successor gradient
[1]. -/
noncomputable def scenarioB : ailayer_sigmoid_graph ℝ :=
  { layer :=
      { base := mk_base [0] [0]
        dtype := mk_dtype
        sigmoid := fun xs => xs.map sigmoid_scalar
        d_sigmoid := fun xs => xs.map d_sigmoid_scalar
        multiply := fun a b => List.zipWith (fun u v => u * v) a b }
    input_result := mk_tensor [0]
    output_deltas := mk_tensor [1] }

/-- Claim C9: the sigmoid kernel lies strictly between 0 and 1
everywhere, equals 1/2 at 0, and composing the derivative kernel with it
gives sigmoid times one minus sigmoid; on Scenario B (x = [0],
g = [1]) the layer's forward result is [1/2] and its backward gradient
slot is [1/4]. -/
theorem claim_C9_sigmoid_numerics :
    (∀ x : ℝ, 0 < sigmoid_scalar x ∧ sigmoid_scalar x < 1)
    ∧ sigmoid_scalar 0 = 1/2
    ∧ (∀ x : ℝ, d_sigmoid_scalar (sigmoid_scalar x) = sigmoid_scalar x * (1 - sigmoid_scalar x))
    ∧ (ailayer_sigmoid_forward scenarioB).layer.base.result.data = [1/2]
    ∧ (ailayer_sigmoid_backward scenarioB).layer.base.deltas.data = [1/4] := by
  have hzero : sigmoid_scalar 0 = 1/2 := by
    unfold sigmoid_scalar
    norm_num [Real.exp_zero]
  refine ⟨fun x => ⟨?_, ?_⟩, hzero, fun x => rfl, ?_, ?_⟩
  · unfold sigmoid_scalar
    positivity
  · unfold sigmoid_scalar
    rw [div_lt_one (by positivity)]
    exact lt_add_of_pos_right 1 (Real.exp_pos (-x))
  · show ([(0 : ℝ)].map sigmoid_scalar) = [1/2]
    rw [List.map_singleton, hzero]
  · show List.zipWith (fun u v => u * v) (([(0 : ℝ)].map sigmoid_scalar).map d_sigmoid_scalar)
        [1] = [1/4]
    rw [List.map_singleton, hzero, List.map_singleton]
    norm_num [d_sigmoid_scalar]

/-- A predecessor node whose result is 3-dimensional. -/
def c10_input : ailayer ℚ :=
  { mk_base [1] [0] with result := { mk_tensor [1] with dim := 3 } }

/-- A Leaky ReLU layer record to initialize over the 3-dimensional
predecessor. -/
def c10_layer : ailayer_leaky_relu ℚ :=
  { base := mk_base [] []
    dtype := mk_dtype
    alpha := 1/10
    leaky_relu := leaky_relu_kernel
    d_leaky_relu := d_leaky_relu_kernel
    multiply := multiply_kernel }

/-- A Sigmoid layer record to initialize over the 3-dimensional
predecessor. -/
def c10_sigmoid_layer : ailayer_sigmoid ℚ :=
  { base := mk_base [] []
    dtype := mk_dtype
    sigmoid := fun xs => xs
    d_sigmoid := fun xs => xs
    multiply := multiply_kernel }

/-- Claim C10: both initializers pin the gradient tensor's
dimensionality to the constant 2 while the result tensor copies its
dimensionality from the predecessor's result, and both tensors end with
identical shape addresses; hence whenever the predecessor's result is
not 2-dimensional the gradient slot's dimensionality differs from the
result's even though their shape pointers are equal. -/
theorem claim_C10_deltas_dim_two :
    (∀ (α : Type) (layer : ailayer_leaky_relu α) (a : Nat) (input : ailayer α) (b : Nat),
      (ailayer_leaky_relu_init layer a input b).1.base.deltas.dim = 2
      ∧ (ailayer_leaky_relu_init layer a input b).1.base.result.dim = input.result.dim
      ∧ (ailayer_leaky_relu_init layer a input b).1.base.deltas.shape
          = (ailayer_leaky_relu_init layer a input b).1.base.result.shape
      ∧ (input.result.dim ≠ 2 →
          (ailayer_leaky_relu_init layer a input b).1.base.deltas.dim
            ≠ (ailayer_leaky_relu_init layer a input b).1.base.result.dim))
    ∧ (∀ (α : Type) (layer : ailayer_sigmoid α) (a : Nat) (input : ailayer α) (b : Nat),
      (ailayer_sigmoid_init layer a input b).1.base.deltas.dim = 2
      ∧ (ailayer_sigmoid_init layer a input b).1.base.result.dim = input.result.dim
      ∧ (ailayer_sigmoid_init layer a input b).1.base.deltas.shape
          = (ailayer_sigmoid_init layer a input b).1.base.result.shape
      ∧ (input.result.dim ≠ 2 →
          (ailayer_sigmoid_init layer a input b).1.base.deltas.dim
            ≠ (ailayer_sigmoid_init layer a input b).1.base.result.dim)) :=
  ⟨fun _ _ _ _ _ => ⟨rfl, rfl, rfl, fun h hc => h hc.symm⟩,
   fun _ _ _ _ _ => ⟨rfl, rfl, rfl, fun h hc => h hc.symm⟩⟩

/-- Claim C10 witness: over the 3-dimensional predecessor c10_input,
the Leaky ReLU node's gradient dimensionality 2 differs from its result
dimensionality 3, and likewise for the Sigmoid node. -/
theorem claim_C10_deltas_dim_two_witness :
    (ailayer_leaky_relu_init c10_layer 21 c10_input 20).1.base.deltas.dim
      ≠ (ailayer_leaky_relu_init c10_layer 21 c10_input 20).1.base.result.dim
    ∧ (ailayer_sigmoid_init c10_sigmoid_layer 31 c10_input 30).1.base.deltas.dim
      ≠ (ailayer_sigmoid_init c10_sigmoid_layer 31 c10_input 30).1.base.result.dim :=
  ⟨(claim_C10_deltas_dim_two.1 ℚ c10_layer 21 c10_input 20).2.2.2 (by decide),
   (claim_C10_deltas_dim_two.2 ℚ c10_sigmoid_layer 31 c10_input 30).2.2.2 (by decide)⟩
